import Mathlib

/-!
# Shallow embedding of the health-tracking REST backend

This file embeds the route layer (`server/routes.ts`), the storage layer
(`server/storage.ts`, class `DatabaseStorage`) and the AI analysis glue
(`server/anthropic.ts`) of the health-tracking backend, and proves the
spec's testable properties about them.

Modelling conventions:
* A relational table is a `List` of row structures; the serial primary key
  and the timestamp columns are explicit `Nat` fields (timestamps are
  milliseconds since the epoch, which is all the queries compare).
* The shared schema module (`@shared/schema`, included in src at the end of
  `replit.md`) fixes each table's columns and constraints.  Row structures
  keep the key, timestamp and constraint-bearing columns the claims depend
  on explicitly and abstract the remaining data columns as key-value pairs.
  Each zod `parse` call is a universally quantified black-box parameter
  `ReqBody → Except String _` of the route function, so a theorem about a
  schema-validated route holds for the real schema's parse as an instance.
  Schema constraints that decide a claim are modelled explicitly: the
  `user_profiles` table declares no unique index on `user_id`, so the
  profile upsert's ON CONFLICT target never resolves (Postgres error 42P10
  on every call), and `appointments.status` is the closed
  `appointment_status` enum, which the database rejects out-of-set values
  for at UPDATE time.
* `db.select … where eq` followed by the `[row] = …` destructuring returns
  the first matching row or `undefined`; this is `List.find?`.
* `orderBy(desc(col))` is a merge sort by the descending comparator;
  `.limit(n)` is `List.take n`.
* Effectful calls a handler may or may not reach (the storage call, the
  outbound AI call) are tracked by a `Bool` in the handler's result where a
  claim needs it.
-/

namespace HealthApp

/-- The hard-coded mock user id that the `requireAuth` middleware stamps on
every request (`req.userId`). -/
def mockUserId : String := "550e8400-e29b-41d4-a716-446655440000"

/-! ## Rows and insert payloads -/

/-- A row of the `userProfiles` table: the `userId` column (the upsert's
conflict target), the other data columns (abstract, see the header), and the
server-assigned timestamp columns. -/
structure UserProfileRow where
  userId : String
  fields : List (String × String)
  createdAt : Nat
  updatedAt : Nat
deriving DecidableEq

/-- The validated payload accepted by `upsertUserProfile`
(`InsertUserProfile`): the owning user id plus the data columns. -/
structure InsertUserProfile where
  userId : String
  fields : List (String × String)
deriving DecidableEq

/-- A row of the `foodEntries` table: serial id, owning user id, the
`timestamp` column the queries filter and order by, and the other columns. -/
structure FoodEntryRow where
  id : Nat
  userId : String
  timestamp : Nat
  fields : List (String × String)
deriving DecidableEq

/-- The validated payload accepted by `createFoodEntry`. -/
structure InsertFoodEntry where
  userId : String
  timestamp : Nat
  fields : List (String × String)
deriving DecidableEq

/-- A row of the `hrvData` table. -/
structure HRVRow where
  id : Nat
  userId : String
  timestamp : Nat
  fields : List (String × String)
deriving DecidableEq

/-- A row of the `appointments` table: serial id, the owning patient id, the
`status` column, the `updatedAt` timestamp, and the other columns. -/
structure AppointmentRow where
  id : Nat
  patientId : String
  status : String
  updatedAt : Nat
  fields : List (String × String)
deriving DecidableEq

/-- The validated payload accepted by `createAppointment`. -/
structure InsertAppointment where
  patientId : String
  fields : List (String × String)
deriving DecidableEq

/-- A row of the `medicalDocuments` table. -/
structure MedicalDocumentRow where
  id : Nat
  userId : String
  fields : List (String × String)
deriving DecidableEq

/-- The validated payload accepted by `createMedicalDocument`. -/
structure InsertMedicalDocument where
  userId : String
  fields : List (String × String)
deriving DecidableEq

/-- A row of the `aiConversations` table. -/
structure AIConversationRow where
  id : Nat
  userId : String
  createdAt : Nat
  fields : List (String × String)
deriving DecidableEq

/-! ## Storage layer (`DatabaseStorage`) -/

/-- `getUserProfile`: select the profile row whose `userId` column equals the
argument; the `[profile] = …` destructuring yields the first row, and
`profile || undefined` turns a missing row into an absent value. -/
def getUserProfile (profiles : List UserProfileRow) (userId : String) :
    Option UserProfileRow :=
  profiles.find? (fun p => p.userId == userId)

/-- The message of Postgres error 42P10, raised when an ON CONFLICT target
matches no unique index of the table. -/
def conflictTargetErr : String :=
  "there is no unique or exclusion constraint matching the ON CONFLICT specification"

/-- Whether the schema declares a unique index usable as the conflict target
`userProfiles.userId`.  In the schema, `userId` is
`uuid("user_id").references(() => users.id, …).notNull()` with no
`.unique()` and no table-level unique index (unlike `users.email`, which is
`.unique()` and makes `upsertUser`'s target valid), so no such index
exists. -/
def userProfilesUserIdUnique : Bool := false

/-- `upsertUserProfile`: insert the payload with
`onConflictDoUpdate({target: userProfiles.userId, set: {...profileData,
updatedAt: new Date()}})` and `.returning()`.  Postgres resolves the
conflict target against the table's unique indexes before touching any row,
and the schema declares none on `user_id`, so the statement deterministically
raises 42P10 and the returned promise rejects — even on an empty table.  The
insert-or-update branch below is the semantics the statement would have if
the index existed; against the schema in src it is unreachable. -/
def upsertUserProfile (profiles : List UserProfileRow)
    (profileData : InsertUserProfile) (now : Nat) :
    Except String (List UserProfileRow × UserProfileRow) :=
  if userProfilesUserIdUnique then
    match profiles.find? (fun p => p.userId == profileData.userId) with
    | some existing =>
        let updated : UserProfileRow :=
          { existing with
              userId := profileData.userId
              fields := profileData.fields
              updatedAt := now }
        .ok (profiles.map fun p =>
              if p.userId == profileData.userId then updated else p,
            updated)
    | none =>
        let inserted : UserProfileRow :=
          { userId := profileData.userId
            fields := profileData.fields
            createdAt := now
            updatedAt := now }
        .ok (profiles ++ [inserted], inserted)
  else
    .error conflictTargetErr

/-- Descending-timestamp comparator used by `orderBy(desc(foodEntries.timestamp))`. -/
def foodDesc (a b : FoodEntryRow) : Bool :=
  b.timestamp ≤ a.timestamp

/-- `createFoodEntry`: plain insert of the validated payload, `.returning()`
the new row with its generated serial id. -/
def createFoodEntry (entries : List FoodEntryRow) (entryData : InsertFoodEntry)
    (newId : Nat) : List FoodEntryRow × FoodEntryRow :=
  let row : FoodEntryRow :=
    { id := newId
      userId := entryData.userId
      timestamp := entryData.timestamp
      fields := entryData.fields }
  (entries ++ [row], row)

/-- `getFoodEntries(userId, limit = 50)`: select the rows whose `userId`
column matches, order by `timestamp` descending, truncate to `limit`
(default parameter 50 when the caller passes `undefined`). -/
def getFoodEntries (entries : List FoodEntryRow) (userId : String)
    (limit : Option Nat) : List FoodEntryRow :=
  (((entries.filter (fun e => e.userId == userId)).mergeSort foodDesc).take
    (limit.getD 50))

/-- `getFoodEntriesByDateRange`: select the rows whose `userId` matches and
whose `timestamp` satisfies `gte(timestamp, startDate)` and
`lte(timestamp, endDate)`, ordered by `timestamp` descending (no limit). -/
def getFoodEntriesByDateRange (entries : List FoodEntryRow) (userId : String)
    (startDate endDate : Nat) : List FoodEntryRow :=
  ((entries.filter (fun e =>
      e.userId == userId && startDate ≤ e.timestamp && e.timestamp ≤ endDate)).mergeSort
    foodDesc)

/-- Descending-timestamp comparator used by `orderBy(desc(hrvData.timestamp))`. -/
def hrvDesc (a b : HRVRow) : Bool :=
  b.timestamp ≤ a.timestamp

/-- `getHRVData(userId, limit = 100)`: select the rows whose `userId` matches,
order by `timestamp` descending, truncate to `limit` (default 100). -/
def getHRVData (rows : List HRVRow) (userId : String) (limit : Option Nat) :
    List HRVRow :=
  (((rows.filter (fun r => r.userId == userId)).mergeSort hrvDesc).take
    (limit.getD 100))

/-- `createAppointment`: plain insert.  The `status` column is not part of
the handler-supplied payload model; per the schema it defaults to the enum
value `scheduled` on insertion (`appointmentStatusEnum("status").default`). -/
def createAppointment (appts : List AppointmentRow)
    (appointmentData : InsertAppointment) (newId now : Nat) :
    List AppointmentRow × AppointmentRow :=
  let row : AppointmentRow :=
    { id := newId
      patientId := appointmentData.patientId
      status := "scheduled"
      updatedAt := now
      fields := appointmentData.fields }
  (appts ++ [row], row)

/-- The closed value set of the `appointment_status` pgEnum declared in the
schema, the type of the `appointments.status` column. -/
def appointmentStatusValues : List String :=
  ["scheduled", "completed", "cancelled", "rescheduled"]

/-- `updateAppointmentStatus(id, status)`: a single `update … set
{status: status as any, updatedAt: new Date()} where eq(appointments.id, id)`.
The `status` column is the `appointment_status` enum (`as any` bypasses only
the TypeScript check), so the database rejects the statement with an
invalid-enum-input error when the bound status is outside the enum's value
set, regardless of how many rows the WHERE clause matches.  For an in-set
status every row whose id matches is rewritten; when none matches the update
affects zero rows and the table is unchanged, and the returned promise
carries no row count, so zero matches is silent. -/
def updateAppointmentStatus (appts : List AppointmentRow) (id : Nat)
    (status : String) (now : Nat) : Except String (List AppointmentRow) :=
  if appointmentStatusValues.contains status then
    .ok (appts.map fun a =>
      if a.id == id then { a with status := status, updatedAt := now } else a)
  else
    .error ("invalid input value for enum appointment_status: " ++ status)

/-- `createMedicalDocument`: plain insert. -/
def createMedicalDocument (docs : List MedicalDocumentRow)
    (documentData : InsertMedicalDocument) (newId : Nat) :
    List MedicalDocumentRow × MedicalDocumentRow :=
  let row : MedicalDocumentRow :=
    { id := newId
      userId := documentData.userId
      fields := documentData.fields }
  (docs ++ [row], row)

/-! ## AI analysis glue (`server/anthropic.ts`) -/

/-- The value produced by `JSON.parse` on the model's first content block.
No schema validation is applied to it anywhere in the reviewed sources, so
it is kept abstract as its serialized form. -/
abbrev AnalysisResult := String

/-- `analyzeFoodImage`: the body of the `try` block is the outbound provider
call followed by `JSON.parse`; its outcome (the parsed value, or the failure
message of a network error, rate limit, or malformed JSON reply) is the
`outcome` argument.  The `catch` clause rethrows
`Error("Failed to analyze food image: " + error.message)`. -/
def analyzeFoodImage (outcome : Except String AnalysisResult) :
    Except String AnalysisResult :=
  match outcome with
  | .ok result => .ok result
  | .error msg => .error ("Failed to analyze food image: " ++ msg)

/-- `analyzeFoodText`: same shape as `analyzeFoodImage`; its `catch` clause
rethrows `Error("Failed to analyze food description: " + error.message)`. -/
def analyzeFoodText (outcome : Except String AnalysisResult) :
    Except String AnalysisResult :=
  match outcome with
  | .ok result => .ok result
  | .error msg => .error ("Failed to analyze food description: " ++ msg)

/-! ## Route layer (`registerRoutes`) -/

/-- A JSON request body, split into the owner-id key (`userId`, or
`patientId` for appointments) when the client supplied one, and all the
other keys.  The handlers' spread-and-override literal
`{...req.body, userId: req.userId}` rewrites exactly the owner key. -/
structure ReqBody where
  ownerField : Option String
  rest : List (String × String)
deriving DecidableEq

/-- The spread-and-override object literal `{...body, owner: authId}`: the
body's keys with the owner key set to the authenticated user id. -/
def overrideOwner (body : ReqBody) (authId : String) : ReqBody :=
  { body with ownerField := some authId }

/-- JavaScript truthiness test for a request parameter, as used by the
explicit precondition checks (`!startDate`, `!base64Image`, …): an absent
parameter and the empty string are both falsy. -/
def isFalsy (s : Option String) : Bool :=
  match s with
  | none => true
  | some str => str == ""

/-- The JSON payloads the embedded routes respond with. -/
inductive RespBody where
  | messageObj (message : String)
  | profileJson (profile : Option UserProfileRow)
  | entriesJson (entries : List FoodEntryRow)
  | entryJson (entry : FoodEntryRow)
  | hrvListJson (rows : List HRVRow)
  | hrvRowJson (row : HRVRow)
  | appointmentJson (appt : AppointmentRow)
  | documentJson (doc : MedicalDocumentRow)
  | conversationJson (conv : AIConversationRow)
  | analysisJson (analysis : AnalysisResult)
deriving DecidableEq

/-- An HTTP response: status code and JSON body. -/
structure Response where
  status : Nat
  body : RespBody
deriving DecidableEq

/-- `GET /api/profile`: fetch the profile for the authenticated user id and
respond 200 with it as-is — `res.json(profile)` serializes `undefined`
(here `none`) as an absent/null body, with no 404 branch. -/
def getProfileRoute (profiles : List UserProfileRow) : Response :=
  { status := 200, body := .profileJson (getUserProfile profiles mockUserId) }

/-- `POST /api/profile`: parse `{...req.body, userId: req.userId}` with
`insertUserProfileSchema` (the black-box `parse`), upsert on success and
respond 200 with the written row; any throw — a parse failure, or the
upsert's rejected promise — falls to the catch clause, which responds 500
with the generic message and leaves the table untouched. -/
def postProfileRoute (parse : ReqBody → Except String InsertUserProfile)
    (profiles : List UserProfileRow) (body : ReqBody) (now : Nat) :
    Response × List UserProfileRow :=
  match parse (overrideOwner body mockUserId) with
  | .ok profileData =>
      match upsertUserProfile profiles profileData now with
      | .ok result =>
          ({ status := 200, body := .profileJson (some result.2) }, result.1)
      | .error _ =>
          ({ status := 500, body := .messageObj "Failed to update profile" },
           profiles)
  | .error _ =>
      ({ status := 500, body := .messageObj "Failed to update profile" }, profiles)

/-- `GET /api/food-entries?limit=N`: list the authenticated user's entries;
`limit` is the parsed query parameter or `undefined`. -/
def getFoodEntriesRoute (entries : List FoodEntryRow) (limit : Option Nat) :
    Response :=
  { status := 200, body := .entriesJson (getFoodEntries entries mockUserId limit) }

/-- `POST /api/food-entries`: parse `{...req.body, userId: req.userId}` with
`insertFoodEntrySchema`, insert on success; a parse failure falls to the
catch clause (500, generic message, table untouched). -/
def postFoodEntriesRoute (parse : ReqBody → Except String InsertFoodEntry)
    (entries : List FoodEntryRow) (body : ReqBody) (newId : Nat) :
    Response × List FoodEntryRow :=
  match parse (overrideOwner body mockUserId) with
  | .ok entryData =>
      let result := createFoodEntry entries entryData newId
      ({ status := 200, body := .entryJson result.2 }, result.1)
  | .error _ =>
      ({ status := 500, body := .messageObj "Failed to create food entry" }, entries)

/-- `GET /api/food-entries/range?startDate&endDate`: if either query
parameter is falsy, respond 400 with the specific message before any storage
call; otherwise run the date-range query on the parsed dates (`new Date(s)`
is the black-box `parseDate`).  The `Bool` records whether the storage call
was reached. -/
def getFoodEntriesRangeRoute (entries : List FoodEntryRow)
    (startDate endDate : Option String) (parseDate : String → Nat) :
    Response × Bool :=
  if isFalsy startDate || isFalsy endDate then
    ({ status := 400, body := .messageObj "Start date and end date are required" },
     false)
  else
    ({ status := 200
       body := .entriesJson (getFoodEntriesByDateRange entries mockUserId
         (parseDate (startDate.getD "")) (parseDate (endDate.getD ""))) },
     true)

/-- `POST /api/analyze-food-image`: if `base64Image` is falsy, respond 400
with the specific message before the outbound AI call; otherwise call
`analyzeFoodImage` and respond 200 with the analysis, or — when it throws —
500 with the route's fixed generic message (the thrown error is logged, not
returned).  The `Bool` records whether the AI call was reached. -/
def postAnalyzeFoodImageRoute (base64Image : Option String)
    (outcome : Except String AnalysisResult) : Response × Bool :=
  if isFalsy base64Image then
    ({ status := 400, body := .messageObj "Base64 image is required" }, false)
  else
    match analyzeFoodImage outcome with
    | .ok analysis => ({ status := 200, body := .analysisJson analysis }, true)
    | .error _ =>
        ({ status := 500, body := .messageObj "Failed to analyze food image" }, true)

/-- `POST /api/analyze-food-text`: same shape as the image route, keyed on
`description`, with its own messages. -/
def postAnalyzeFoodTextRoute (description : Option String)
    (outcome : Except String AnalysisResult) : Response × Bool :=
  if isFalsy description then
    ({ status := 400, body := .messageObj "Food description is required" }, false)
  else
    match analyzeFoodText outcome with
    | .ok analysis => ({ status := 200, body := .analysisJson analysis }, true)
    | .error _ =>
        ({ status := 500,
           body := .messageObj "Failed to analyze food description" }, true)

/-- `GET /api/hrv-data?limit=N`: list the authenticated user's HRV rows. -/
def getHrvDataRoute (rows : List HRVRow) (limit : Option Nat) : Response :=
  { status := 200, body := .hrvListJson (getHRVData rows mockUserId limit) }

/-- `createHRVData`: plain insert of the raw merged body (this route applies
no validation schema); the row's `userId` column is the merged body's owner
key, its `timestamp` column takes the insertion default `now` (a
client-supplied timestamp, unexercised by the claims, would live in the
body's other keys). -/
def createHRVData (rows : List HRVRow) (data : ReqBody) (newId now : Nat) :
    List HRVRow × HRVRow :=
  let row : HRVRow :=
    { id := newId
      userId := data.ownerField.getD ""
      timestamp := now
      fields := data.rest }
  (rows ++ [row], row)

/-- `POST /api/hrv-data`: build `{...req.body, userId: req.userId}` (no
schema), insert it, respond 200 with the new row. -/
def postHrvDataRoute (rows : List HRVRow) (body : ReqBody) (newId now : Nat) :
    Response × List HRVRow :=
  let result := createHRVData rows (overrideOwner body mockUserId) newId now
  ({ status := 200, body := .hrvRowJson result.2 }, result.1)

/-- `POST /api/appointments`: parse `{...req.body, patientId: req.userId}`
with `insertAppointmentSchema`, insert on success; a parse failure falls to
the catch clause (500, generic message). -/
def postAppointmentsRoute (parse : ReqBody → Except String InsertAppointment)
    (appts : List AppointmentRow) (body : ReqBody) (newId now : Nat) :
    Response × List AppointmentRow :=
  match parse (overrideOwner body mockUserId) with
  | .ok appointmentData =>
      let result := createAppointment appts appointmentData newId now
      ({ status := 200, body := .appointmentJson result.2 }, result.1)
  | .error _ =>
      ({ status := 500, body := .messageObj "Failed to create appointment" }, appts)

/-- `PATCH /api/appointments/:id/status`: run `updateAppointmentStatus` on
the parsed numeric id and the body's `status` string — the route itself
performs no membership check against the enumerated status values and no
affected-row check — and respond 200 with the fixed success message; a
rejected update (the database's enum check) falls to the catch clause,
which responds 500 with the generic message. -/
def patchAppointmentStatusRoute (appts : List AppointmentRow) (id : Nat)
    (status : String) (now : Nat) : Response × List AppointmentRow :=
  match updateAppointmentStatus appts id status now with
  | .ok appts2 =>
      ({ status := 200, body := .messageObj "Appointment status updated" },
       appts2)
  | .error _ =>
      ({ status := 500,
         body := .messageObj "Failed to update appointment status" }, appts)

/-- `POST /api/medical-documents`: parse `{...req.body, userId: req.userId}`
with `insertMedicalDocumentSchema`, insert on success; a parse failure falls
to the catch clause (500, generic message). -/
def postMedicalDocumentsRoute
    (parse : ReqBody → Except String InsertMedicalDocument)
    (docs : List MedicalDocumentRow) (body : ReqBody) (newId : Nat) :
    Response × List MedicalDocumentRow :=
  match parse (overrideOwner body mockUserId) with
  | .ok documentData =>
      let result := createMedicalDocument docs documentData newId
      ({ status := 200, body := .documentJson result.2 }, result.1)
  | .error _ =>
      ({ status := 500,
         body := .messageObj "Failed to create medical document" }, docs)

/-- `createAIConversation`: plain insert of the raw merged body (no
validation schema on this route); the row's `userId` column is the merged
body's owner key and `createdAt` takes the insertion default. -/
def createAIConversation (convs : List AIConversationRow) (data : ReqBody)
    (newId now : Nat) : List AIConversationRow × AIConversationRow :=
  let row : AIConversationRow :=
    { id := newId
      userId := data.ownerField.getD ""
      createdAt := now
      fields := data.rest }
  (convs ++ [row], row)

/-- `POST /api/ai-conversations`: build `{...req.body, userId: req.userId}`
(no schema), insert it, respond 200 with the new row. -/
def postAiConversationsRoute (convs : List AIConversationRow) (body : ReqBody)
    (newId now : Nat) : Response × List AIConversationRow :=
  let result := createAIConversation convs (overrideOwner body mockUserId) newId now
  ({ status := 200, body := .conversationJson result.2 }, result.1)

/-- Substring containment, the reading of "the message embeds the underlying
failure text": some suffix of `s` starts with `sub`. -/
def strContains (s sub : String) : Bool :=
  s.toList.tails.any (fun t => sub.toList.isPrefixOf t)

/-! ## Helper lemmas -/

lemma overrideOwner_rest_congr (b1 b2 : ReqBody) (h : b1.rest = b2.rest)
    (authId : String) : overrideOwner b1 authId = overrideOwner b2 authId := by
  cases b1
  cases b2
  simp only [overrideOwner]
  simp_all

lemma foodDesc_trans : ∀ a b c : FoodEntryRow,
    foodDesc a b = true → foodDesc b c = true → foodDesc a c = true := by
  intro a b c h1 h2
  simp only [foodDesc, decide_eq_true_eq] at h1 h2 ⊢
  omega

lemma foodDesc_total : ∀ a b : FoodEntryRow,
    (foodDesc a b || foodDesc b a) = true := by
  intro a b
  simp only [foodDesc, Bool.or_eq_true, decide_eq_true_eq]
  omega

lemma mergeSort_foodDesc_pairwise (l : List FoodEntryRow) :
    (l.mergeSort foodDesc).Pairwise (fun a b => b.timestamp ≤ a.timestamp) := by
  have hs := List.sorted_mergeSort foodDesc_trans foodDesc_total l
  exact hs.imp (fun h => by simpa [foodDesc] using h)

lemma hrvDesc_trans : ∀ a b c : HRVRow,
    hrvDesc a b = true → hrvDesc b c = true → hrvDesc a c = true := by
  intro a b c h1 h2
  simp only [hrvDesc, decide_eq_true_eq] at h1 h2 ⊢
  omega

lemma hrvDesc_total : ∀ a b : HRVRow,
    (hrvDesc a b || hrvDesc b a) = true := by
  intro a b
  simp only [hrvDesc, Bool.or_eq_true, decide_eq_true_eq]
  omega

lemma mergeSort_hrvDesc_pairwise (l : List HRVRow) :
    (l.mergeSort hrvDesc).Pairwise (fun a b => b.timestamp ≤ a.timestamp) := by
  have hs := List.sorted_mergeSort hrvDesc_trans hrvDesc_total l
  exact hs.imp (fun h => by simpa [hrvDesc] using h)

lemma getFoodEntries_length (entries : List FoodEntryRow) (u : String)
    (lim : Option Nat) :
    (getFoodEntries entries u lim).length
      = min (lim.getD 50) (entries.countP (fun x => x.userId == u)) := by
  unfold getFoodEntries
  rw [List.length_take, (List.mergeSort_perm _ _).length_eq,
    ← List.countP_eq_length_filter]

lemma getHRVData_length (rows : List HRVRow) (u : String) (lim : Option Nat) :
    (getHRVData rows u lim).length
      = min (lim.getD 100) (rows.countP (fun r => r.userId == u)) := by
  unfold getHRVData
  rw [List.length_take, (List.mergeSort_perm _ _).length_eq,
    ← List.countP_eq_length_filter]

lemma getFoodEntries_mem (entries : List FoodEntryRow) (u : String)
    (lim : Option Nat) (x : FoodEntryRow) (hx : x ∈ getFoodEntries entries u lim) :
    x ∈ entries ∧ x.userId = u := by
  unfold getFoodEntries at hx
  have hx2 := (List.take_sublist _ _).subset hx
  rw [List.mem_mergeSort, List.mem_filter] at hx2
  exact ⟨hx2.1, by simpa using hx2.2⟩

lemma getHRVData_mem (rows : List HRVRow) (u : String) (lim : Option Nat)
    (r : HRVRow) (hr : r ∈ getHRVData rows u lim) :
    r ∈ rows ∧ r.userId = u := by
  unfold getHRVData at hr
  have hr2 := (List.take_sublist _ _).subset hr
  rw [List.mem_mergeSort, List.mem_filter] at hr2
  exact ⟨hr2.1, by simpa using hr2.2⟩

/-! ## Claim theorems -/

/-- C1 (code bug): the schema declares no unique index on
`user_profiles.user_id`, so the ON CONFLICT target of `upsertUserProfile`
never resolves: every call — even for a valid payload on any table state —
rejects with Postgres error 42P10, `POST /api/profile` responds 500 with the
generic message leaving the table unchanged, and the subsequent
`GET /api/profile` returns the pre-existing state, never the posted values.
The claimed round-trip therefore never holds. -/
theorem profile_roundtrip_code_bug (profiles : List UserProfileRow)
    (p : InsertUserProfile) (now : Nat)
    (parse : ReqBody → Except String InsertUserProfile) (body : ReqBody)
    (hp : parse (overrideOwner body mockUserId) = .ok p) :
    upsertUserProfile profiles p now = .error conflictTargetErr ∧
    postProfileRoute parse profiles body now
      = ({ status := 500, body := .messageObj "Failed to update profile" },
         profiles) ∧
    getProfileRoute (postProfileRoute parse profiles body now).2
      = { status := 200,
          body := .profileJson (getUserProfile profiles mockUserId) } := by
  have hpost : postProfileRoute parse profiles body now
      = ({ status := 500, body := .messageObj "Failed to update profile" },
         profiles) := by
    simp [postProfileRoute, hp, upsertUserProfile, userProfilesUserIdUnique]
  refine ⟨rfl, hpost, ?_⟩
  rw [hpost]
  rfl

/-- C1 witness: the failing input — a valid concrete payload for the mock
user on an empty table: the upsert rejects, the POST responds 500, and the
GET still returns the absent value, not the posted fields. -/
theorem profile_roundtrip_code_bug_witness :
    upsertUserProfile [] ⟨mockUserId, [("age", "30")]⟩ 7
      = .error conflictTargetErr ∧
    postProfileRoute (fun _ => .ok ⟨mockUserId, [("age", "30")]⟩) []
        ⟨none, [("age", "30")]⟩ 7
      = ({ status := 500, body := .messageObj "Failed to update profile" },
         []) ∧
    getProfileRoute
        (postProfileRoute (fun _ => .ok ⟨mockUserId, [("age", "30")]⟩) []
          ⟨none, [("age", "30")]⟩ 7).2
      = { status := 200, body := .profileJson none } :=
  profile_roundtrip_code_bug [] ⟨mockUserId, [("age", "30")]⟩ 7
    (fun _ => .ok ⟨mockUserId, [("age", "30")]⟩) ⟨none, [("age", "30")]⟩ rfl

/-- C2 (code bug): with no unique index on `user_profiles.user_id`, both
upsert calls reject with Postgres error 42P10 and neither ever returns a
written table: the insert-with-conflict-target pattern the claim relies on
cannot leave any row — let alone exactly one carrying the second payload's
fields with a refreshed `updatedAt` — and `POST /api/profile` always
responds 500 leaving the table unchanged. -/
theorem upsert_twice_code_bug (profiles : List UserProfileRow)
    (p1 p2 : InsertUserProfile) (n1 n2 : Nat) :
    upsertUserProfile profiles p1 n1 = .error conflictTargetErr ∧
    upsertUserProfile profiles p2 n2 = .error conflictTargetErr ∧
    (∀ res, upsertUserProfile profiles p1 n1 ≠ .ok res) ∧
    (∀ parse body, parse (overrideOwner body mockUserId) = .ok p1 →
      postProfileRoute parse profiles body n1
        = ({ status := 500, body := .messageObj "Failed to update profile" },
           profiles)) := by
  refine ⟨rfl, rfl, ?_, ?_⟩
  · intro res hres
    simp [upsertUserProfile, userProfilesUserIdUnique] at hres
  · intro parse body hp
    simp [postProfileRoute, hp, upsertUserProfile, userProfilesUserIdUnique]

/-- C2 witness: two concrete upserts for one user on an empty table both
reject, and the concrete POST responds 500 with the table still empty. -/
theorem upsert_twice_code_bug_witness :
    upsertUserProfile [] ⟨"u1", [("w", "70")]⟩ 1 = .error conflictTargetErr ∧
    upsertUserProfile [] ⟨"u1", [("w", "72")]⟩ 2 = .error conflictTargetErr ∧
    postProfileRoute (fun _ => .ok ⟨"u1", [("w", "70")]⟩) [] ⟨none, []⟩ 1
      = ({ status := 500, body := .messageObj "Failed to update profile" },
         []) :=
  ⟨(upsert_twice_code_bug [] ⟨"u1", [("w", "70")]⟩ ⟨"u1", [("w", "72")]⟩ 1 2).1,
   (upsert_twice_code_bug [] ⟨"u1", [("w", "70")]⟩ ⟨"u1", [("w", "72")]⟩ 1 2).2.1,
   (upsert_twice_code_bug [] ⟨"u1", [("w", "70")]⟩ ⟨"u1", [("w", "72")]⟩ 1 2).2.2.2
     (fun _ => .ok ⟨"u1", [("w", "70")]⟩) ⟨none, []⟩ rfl⟩

/-- C3: the date-range query returns exactly the stored food entries of the
given user whose timestamp lies in the closed interval
`startDate ≤ t ≤ endDate` (a permutation of — that is, the same multiset as —
the matching rows, with a pointwise membership characterization), ordered by
timestamp descending.  Stated for all bounds, so in particular for every
pair with `startDate ≤ endDate`. -/
theorem foodEntries_dateRange_spec (entries : List FoodEntryRow) (u : String)
    (s e : Nat) :
    ((getFoodEntriesByDateRange entries u s e).Perm
      (entries.filter
        (fun x => x.userId == u && s ≤ x.timestamp && x.timestamp ≤ e))) ∧
    (∀ x, x ∈ getFoodEntriesByDateRange entries u s e ↔
      x ∈ entries ∧ x.userId = u ∧ s ≤ x.timestamp ∧ x.timestamp ≤ e) ∧
    (getFoodEntriesByDateRange entries u s e).Pairwise
      (fun a b => b.timestamp ≤ a.timestamp) := by
  refine ⟨List.mergeSort_perm _ _, ?_, mergeSort_foodDesc_pairwise _⟩
  intro x
  unfold getFoodEntriesByDateRange
  rw [List.mem_mergeSort, List.mem_filter]
  simp [and_assoc]

/-- C3 witness: the date-range query evaluated on a concrete two-user table
with an in-range and an out-of-range entry. -/
theorem foodEntries_dateRange_spec_witness :
    (((getFoodEntriesByDateRange
        [⟨1, "u1", 5, []⟩, ⟨2, "u1", 40, []⟩, ⟨3, "u2", 20, []⟩] "u1" 10 30).Perm
      ([⟨1, "u1", 5, []⟩, ⟨2, "u1", 40, []⟩, ⟨3, "u2", 20, []⟩].filter
        (fun x => x.userId == "u1" && 10 ≤ x.timestamp && x.timestamp ≤ 30)))) ∧
    ((⟨1, "u1", 5, []⟩ : FoodEntryRow) ∈
        getFoodEntriesByDateRange
          [⟨1, "u1", 5, []⟩, ⟨2, "u1", 40, []⟩, ⟨3, "u2", 20, []⟩] "u1" 10 30 ↔
      (⟨1, "u1", 5, []⟩ : FoodEntryRow) ∈
          [⟨1, "u1", 5, []⟩, ⟨2, "u1", 40, []⟩, ⟨3, "u2", 20, []⟩] ∧
        (⟨1, "u1", 5, []⟩ : FoodEntryRow).userId = "u1" ∧
        10 ≤ (⟨1, "u1", 5, []⟩ : FoodEntryRow).timestamp ∧
        (⟨1, "u1", 5, []⟩ : FoodEntryRow).timestamp ≤ 30) ∧
    (getFoodEntriesByDateRange
        [⟨1, "u1", 5, []⟩, ⟨2, "u1", 40, []⟩, ⟨3, "u2", 20, []⟩] "u1" 10 30).Pairwise
      (fun a b => b.timestamp ≤ a.timestamp) :=
  ⟨(foodEntries_dateRange_spec
      [⟨1, "u1", 5, []⟩, ⟨2, "u1", 40, []⟩, ⟨3, "u2", 20, []⟩] "u1" 10 30).1,
   (foodEntries_dateRange_spec
      [⟨1, "u1", 5, []⟩, ⟨2, "u1", 40, []⟩, ⟨3, "u2", 20, []⟩] "u1" 10 30).2.1
     ⟨1, "u1", 5, []⟩,
   (foodEntries_dateRange_spec
      [⟨1, "u1", 5, []⟩, ⟨2, "u1", 40, []⟩, ⟨3, "u2", 20, []⟩] "u1" 10 30).2.2⟩

/-- C7: the two list queries return the user's rows newest-first truncated to
the limit.  `getFoodEntries` yields `min limit (number of the user's rows)`
entries (so with no limit the cap is 50), sorted by timestamp descending, all
belonging to the user; `getHRVData` likewise with default cap 100, and with
limit 5 never more than 5 rows. -/
theorem list_queries_limit_spec (entries : List FoodEntryRow)
    (hrvRows : List HRVRow) (u : String) (n : Nat) :
    ((getFoodEntries entries u (some n)).length
      = min n (entries.countP (fun x => x.userId == u))) ∧
    ((getFoodEntries entries u none).length
      = min 50 (entries.countP (fun x => x.userId == u))) ∧
    (∀ lim, (getFoodEntries entries u lim).Pairwise
      (fun a b => b.timestamp ≤ a.timestamp)) ∧
    (∀ lim x, x ∈ getFoodEntries entries u lim → x ∈ entries ∧ x.userId = u) ∧
    ((getHRVData hrvRows u (some 5)).length ≤ 5) ∧
    ((getHRVData hrvRows u none).length
      = min 100 (hrvRows.countP (fun r => r.userId == u))) ∧
    (∀ lim, (getHRVData hrvRows u lim).Pairwise
      (fun a b => b.timestamp ≤ a.timestamp)) ∧
    (∀ lim r, r ∈ getHRVData hrvRows u lim → r ∈ hrvRows ∧ r.userId = u) := by
  refine ⟨getFoodEntries_length entries u (some n),
    getFoodEntries_length entries u none, ?_,
    fun lim x hx => getFoodEntries_mem entries u lim x hx, ?_,
    getHRVData_length hrvRows u none, ?_,
    fun lim r hr => getHRVData_mem hrvRows u lim r hr⟩
  · intro lim
    exact (mergeSort_foodDesc_pairwise _).sublist (List.take_sublist _ _)
  · rw [getHRVData_length]
    simp
  · intro lim
    exact (mergeSort_hrvDesc_pairwise _).sublist (List.take_sublist _ _)

/-- C7 witness: the list queries evaluated on concrete tables. -/
theorem list_queries_limit_spec_witness :
    ((getFoodEntries [⟨1, "u1", 5, []⟩, ⟨2, "u1", 9, []⟩] "u1" (some 1)).length
      = min 1 (([⟨1, "u1", 5, []⟩, ⟨2, "u1", 9, []⟩] : List FoodEntryRow).countP
          (fun x => x.userId == "u1"))) ∧
    ((getFoodEntries [⟨1, "u1", 5, []⟩, ⟨2, "u1", 9, []⟩] "u1" none).length
      = min 50 (([⟨1, "u1", 5, []⟩, ⟨2, "u1", 9, []⟩] : List FoodEntryRow).countP
          (fun x => x.userId == "u1"))) ∧
    ((getFoodEntries [⟨1, "u1", 5, []⟩, ⟨2, "u1", 9, []⟩] "u1" (some 2)).Pairwise
      (fun a b => b.timestamp ≤ a.timestamp)) ∧
    ((getHRVData [⟨1, "u1", 3, []⟩] "u1" (some 5)).length ≤ 5) ∧
    ((getHRVData [⟨1, "u1", 3, []⟩] "u1" none).length
      = min 100 (([⟨1, "u1", 3, []⟩] : List HRVRow).countP
          (fun r => r.userId == "u1"))) :=
  ⟨(list_queries_limit_spec [⟨1, "u1", 5, []⟩, ⟨2, "u1", 9, []⟩]
      [⟨1, "u1", 3, []⟩] "u1" 1).1,
   (list_queries_limit_spec [⟨1, "u1", 5, []⟩, ⟨2, "u1", 9, []⟩]
      [⟨1, "u1", 3, []⟩] "u1" 1).2.1,
   (list_queries_limit_spec [⟨1, "u1", 5, []⟩, ⟨2, "u1", 9, []⟩]
      [⟨1, "u1", 3, []⟩] "u1" 1).2.2.1 (some 2),
   (list_queries_limit_spec [⟨1, "u1", 5, []⟩, ⟨2, "u1", 9, []⟩]
      [⟨1, "u1", 3, []⟩] "u1" 1).2.2.2.2.1,
   (list_queries_limit_spec [⟨1, "u1", 5, []⟩, ⟨2, "u1", 9, []⟩]
      [⟨1, "u1", 3, []⟩] "u1" 1).2.2.2.2.2.1⟩

/-- C4: every create route spreads the request body and then overrides the
owning-user key with the authenticated user id, so the merged object's owner
key is always the fixed `mockUserId`, and two requests whose bodies differ
only in the client-supplied owner key produce identical outcomes on every
create route (two-run noninterference); on the unvalidated insert routes the
stored row's owner column is `mockUserId` outright. -/
theorem create_routes_owner_noninterference (b1 b2 : ReqBody)
    (h : b1.rest = b2.rest) :
    overrideOwner b1 mockUserId = overrideOwner b2 mockUserId ∧
    (overrideOwner b1 mockUserId).ownerField = some mockUserId ∧
    (∀ rows newId now,
      postHrvDataRoute rows b1 newId now = postHrvDataRoute rows b2 newId now ∧
      (createHRVData rows (overrideOwner b1 mockUserId) newId now).2.userId
        = mockUserId) ∧
    (∀ convs newId now,
      postAiConversationsRoute convs b1 newId now
        = postAiConversationsRoute convs b2 newId now ∧
      (createAIConversation convs (overrideOwner b1 mockUserId) newId now).2.userId
        = mockUserId) ∧
    (∀ parse profiles now,
      postProfileRoute parse profiles b1 now = postProfileRoute parse profiles b2 now) ∧
    (∀ parse entries newId,
      postFoodEntriesRoute parse entries b1 newId
        = postFoodEntriesRoute parse entries b2 newId) ∧
    (∀ parse appts newId now,
      postAppointmentsRoute parse appts b1 newId now
        = postAppointmentsRoute parse appts b2 newId now) ∧
    (∀ parse docs newId,
      postMedicalDocumentsRoute parse docs b1 newId
        = postMedicalDocumentsRoute parse docs b2 newId) := by
  have hb : overrideOwner b1 mockUserId = overrideOwner b2 mockUserId :=
    overrideOwner_rest_congr b1 b2 h mockUserId
  refine ⟨hb, rfl, ?_, ?_, ?_, ?_, ?_, ?_⟩
  · intro rows newId now
    constructor
    · simp only [postHrvDataRoute, hb]
    · rfl
  · intro convs newId now
    constructor
    · simp only [postAiConversationsRoute, hb]
    · rfl
  · intro parse profiles now
    simp only [postProfileRoute, hb]
  · intro parse entries newId
    simp only [postFoodEntriesRoute, hb]
  · intro parse appts newId now
    simp only [postAppointmentsRoute, hb]
  · intro parse docs newId
    simp only [postMedicalDocumentsRoute, hb]

/-- C4 witness: a body that smuggles a foreign owner id against a body with
no owner key, identical otherwise. -/
theorem create_routes_owner_noninterference_witness :
    overrideOwner ⟨some "attacker", [("rmssd", "42")]⟩ mockUserId
      = overrideOwner ⟨none, [("rmssd", "42")]⟩ mockUserId ∧
    (overrideOwner ⟨some "attacker", [("rmssd", "42")]⟩ mockUserId).ownerField
      = some mockUserId ∧
    (∀ rows newId now,
      postHrvDataRoute rows ⟨some "attacker", [("rmssd", "42")]⟩ newId now
        = postHrvDataRoute rows ⟨none, [("rmssd", "42")]⟩ newId now ∧
      (createHRVData rows
          (overrideOwner ⟨some "attacker", [("rmssd", "42")]⟩ mockUserId)
          newId now).2.userId = mockUserId) ∧
    (∀ convs newId now,
      postAiConversationsRoute convs ⟨some "attacker", [("rmssd", "42")]⟩ newId now
        = postAiConversationsRoute convs ⟨none, [("rmssd", "42")]⟩ newId now ∧
      (createAIConversation convs
          (overrideOwner ⟨some "attacker", [("rmssd", "42")]⟩ mockUserId)
          newId now).2.userId = mockUserId) ∧
    (∀ parse profiles now,
      postProfileRoute parse profiles ⟨some "attacker", [("rmssd", "42")]⟩ now
        = postProfileRoute parse profiles ⟨none, [("rmssd", "42")]⟩ now) ∧
    (∀ parse entries newId,
      postFoodEntriesRoute parse entries ⟨some "attacker", [("rmssd", "42")]⟩ newId
        = postFoodEntriesRoute parse entries ⟨none, [("rmssd", "42")]⟩ newId) ∧
    (∀ parse appts newId now,
      postAppointmentsRoute parse appts ⟨some "attacker", [("rmssd", "42")]⟩ newId now
        = postAppointmentsRoute parse appts ⟨none, [("rmssd", "42")]⟩ newId now) ∧
    (∀ parse docs newId,
      postMedicalDocumentsRoute parse docs ⟨some "attacker", [("rmssd", "42")]⟩ newId
        = postMedicalDocumentsRoute parse docs ⟨none, [("rmssd", "42")]⟩ newId) :=
  create_routes_owner_noninterference ⟨some "attacker", [("rmssd", "42")]⟩
    ⟨none, [("rmssd", "42")]⟩ rfl

/-- C5 counterexample: with a provider failure whose message is `boom`, the
image-analysis route responds 500 with the route's fixed generic message,
and that response message does not contain the underlying failure text
`boom` — so the HTTP response does not embed the underlying failure text. -/
theorem analyze_failure_response_counterexample :
    postAnalyzeFoodImageRoute (some "img") (.error "boom")
      = ({ status := 500, body := .messageObj "Failed to analyze food image" },
         true) ∧
    strContains "Failed to analyze food image" "boom" = false := by
  constructor
  · rfl
  · decide

/-- C5 (amended): on an external-AI failure the route responds 500 with the
route's fixed generic message (the underlying failure text does not reach the
HTTP response); the text is embedded only in the error the analysis function
rethrows — `"Failed to analyze …: " ++ msg`, which contains `msg` — and that
error is logged server-side, not returned. -/
theorem analyze_failure_response_amended (img descr : Option String)
    (msg : String) (himg : isFalsy img = false) (hdesc : isFalsy descr = false) :
    postAnalyzeFoodImageRoute img (.error msg)
      = ({ status := 500, body := .messageObj "Failed to analyze food image" },
         true) ∧
    postAnalyzeFoodTextRoute descr (.error msg)
      = ({ status := 500,
           body := .messageObj "Failed to analyze food description" }, true) ∧
    analyzeFoodImage (.error msg)
      = .error ("Failed to analyze food image: " ++ msg) ∧
    analyzeFoodText (.error msg)
      = .error ("Failed to analyze food description: " ++ msg) ∧
    strContains ("Failed to analyze food image: " ++ msg) msg = true := by
  refine ⟨?_, ?_, rfl, rfl, ?_⟩
  · simp [postAnalyzeFoodImageRoute, himg, analyzeFoodImage]
  · simp [postAnalyzeFoodTextRoute, hdesc, analyzeFoodText]
  · unfold strContains
    rw [List.any_eq_true]
    refine ⟨msg.toList, ?_, List.isPrefixOf_iff_prefix.mpr List.prefix_rfl⟩
    rw [List.mem_tails]
    have hl : ("Failed to analyze food image: " ++ msg).toList
        = "Failed to analyze food image: ".toList ++ msg.toList := by
      simp
    rw [hl]
    exact List.suffix_append _ _

/-- C5 amended witness: the amended behavior at a concrete rate-limit
failure. -/
theorem analyze_failure_response_amended_witness :
    postAnalyzeFoodImageRoute (some "img") (.error "rate limited")
      = ({ status := 500, body := .messageObj "Failed to analyze food image" },
         true) ∧
    postAnalyzeFoodTextRoute (some "two eggs") (.error "rate limited")
      = ({ status := 500,
           body := .messageObj "Failed to analyze food description" }, true) ∧
    analyzeFoodImage (.error "rate limited")
      = .error ("Failed to analyze food image: " ++ "rate limited") ∧
    analyzeFoodText (.error "rate limited")
      = .error ("Failed to analyze food description: " ++ "rate limited") ∧
    strContains ("Failed to analyze food image: " ++ "rate limited")
      "rate limited" = true :=
  analyze_failure_response_amended (some "img") (some "two eggs") "rate limited"
    rfl rfl

/-- C6: a request body that fails the declared validation schema on a
schema-validated POST route is answered 500 with the route's generic error
message (not 400), and the table is left untouched: the parse failure falls
through to the generic catch clause.  Stated for the food-entry route and,
inner-quantified, for the profile, appointment and medical-document routes. -/
theorem schema_failure_yields_500 (feParse : ReqBody → Except String InsertFoodEntry)
    (entries : List FoodEntryRow) (body : ReqBody) (newId : Nat) (msg : String)
    (hfe : feParse (overrideOwner body mockUserId) = .error msg) :
    postFoodEntriesRoute feParse entries body newId
      = ({ status := 500, body := .messageObj "Failed to create food entry" },
         entries) ∧
    (∀ (pParse : ReqBody → Except String InsertUserProfile) profiles now m,
      pParse (overrideOwner body mockUserId) = .error m →
      postProfileRoute pParse profiles body now
        = ({ status := 500, body := .messageObj "Failed to update profile" },
           profiles)) ∧
    (∀ (aParse : ReqBody → Except String InsertAppointment) appts i now m,
      aParse (overrideOwner body mockUserId) = .error m →
      postAppointmentsRoute aParse appts body i now
        = ({ status := 500, body := .messageObj "Failed to create appointment" },
           appts)) ∧
    (∀ (dParse : ReqBody → Except String InsertMedicalDocument) docs i m,
      dParse (overrideOwner body mockUserId) = .error m →
      postMedicalDocumentsRoute dParse docs body i
        = ({ status := 500,
             body := .messageObj "Failed to create medical document" }, docs)) := by
  refine ⟨?_, ?_, ?_, ?_⟩
  · simp only [postFoodEntriesRoute, hfe]
  · intro pParse profiles now m hm
    simp only [postProfileRoute, hm]
  · intro aParse appts i now m hm
    simp only [postAppointmentsRoute, hm]
  · intro dParse docs i m hm
    simp only [postMedicalDocumentsRoute, hm]

/-- C6 witness: a schema that rejects every body (a required field is
missing) on a concrete request. -/
theorem schema_failure_yields_500_witness :
    postFoodEntriesRoute (fun _ => .error "Required") [] ⟨none, []⟩ 1
      = ({ status := 500, body := .messageObj "Failed to create food entry" },
         ([] : List FoodEntryRow)) ∧
    (∀ (pParse : ReqBody → Except String InsertUserProfile) profiles now m,
      pParse (overrideOwner ⟨none, []⟩ mockUserId) = .error m →
      postProfileRoute pParse profiles ⟨none, []⟩ now
        = ({ status := 500, body := .messageObj "Failed to update profile" },
           profiles)) ∧
    (∀ (aParse : ReqBody → Except String InsertAppointment) appts i now m,
      aParse (overrideOwner ⟨none, []⟩ mockUserId) = .error m →
      postAppointmentsRoute aParse appts ⟨none, []⟩ i now
        = ({ status := 500, body := .messageObj "Failed to create appointment" },
           appts)) ∧
    (∀ (dParse : ReqBody → Except String InsertMedicalDocument) docs i m,
      dParse (overrideOwner ⟨none, []⟩ mockUserId) = .error m →
      postMedicalDocumentsRoute dParse docs ⟨none, []⟩ i
        = ({ status := 500,
             body := .messageObj "Failed to create medical document" }, docs)) :=
  schema_failure_yields_500 (fun _ => .error "Required") [] ⟨none, []⟩ 1
    "Required" rfl

/-- C8: each explicit precondition check answers 400 with its specific
message and reaches no storage or AI call (the effect flag is `false`):
the date-range route when either bound is falsy, the image-analysis route
when `base64Image` is falsy, the text-analysis route when `description` is
falsy. -/
theorem precondition_checks_400 (entries : List FoodEntryRow)
    (sd ed : Option String) (parseDate : String → Nat)
    (outcome : Except String AnalysisResult)
    (hmiss : (isFalsy sd || isFalsy ed) = true) :
    getFoodEntriesRangeRoute entries sd ed parseDate
      = ({ status := 400,
           body := .messageObj "Start date and end date are required" }, false) ∧
    (∀ img, isFalsy img = true →
      postAnalyzeFoodImageRoute img outcome
        = ({ status := 400, body := .messageObj "Base64 image is required" },
           false)) ∧
    (∀ d, isFalsy d = true →
      postAnalyzeFoodTextRoute d outcome
        = ({ status := 400, body := .messageObj "Food description is required" },
           false)) := by
  refine ⟨?_, ?_, ?_⟩
  · simp only [getFoodEntriesRangeRoute, hmiss, if_true]
  · intro img himg
    simp only [postAnalyzeFoodImageRoute, himg, if_true]
  · intro d hd
    simp only [postAnalyzeFoodTextRoute, hd, if_true]

/-- C8 witness: a range request missing its end date, an image request with
an empty body, a text request with an empty description. -/
theorem precondition_checks_400_witness :
    getFoodEntriesRangeRoute [] (some "2024-01-01") none (fun _ => 0)
      = ({ status := 400,
           body := .messageObj "Start date and end date are required" }, false) ∧
    (∀ img, isFalsy img = true →
      postAnalyzeFoodImageRoute img (.ok "{}")
        = ({ status := 400, body := .messageObj "Base64 image is required" },
           false)) ∧
    (∀ d, isFalsy d = true →
      postAnalyzeFoodTextRoute d (.ok "{}")
        = ({ status := 400, body := .messageObj "Food description is required" },
           false)) :=
  precondition_checks_400 [] (some "2024-01-01") none (fun _ => 0) (.ok "{}") rfl

/-- C9 counterexample: PATCH with the out-of-set status `bogus` — here on an
existing appointment id — is rejected by the database's enum check on the
`appointments.status` column, and the route responds 500 with the generic
message, leaving the table unchanged: the claim that every status string
yields 200 with the success message is false. -/
theorem patch_status_enum_counterexample :
    patchAppointmentStatusRoute [⟨1, "u1", "scheduled", 0, []⟩] 1 "bogus" 5
      = ({ status := 500,
           body := .messageObj "Failed to update appointment status" },
         [⟨1, "u1", "scheduled", 0, []⟩]) := by
  rfl

/-- C9 (amended): for every appointment id — including one matching no
stored row — and every status string drawn from the enumerated
scheduled/completed/cancelled/rescheduled set, the route responds 200 with
the fixed success message, a zero-row update goes undetected (no row matches:
the table is unchanged yet success is reported), and every matching row
receives the status verbatim; the route itself never validates the status,
but a status outside the enumerated set is rejected by the database's enum
check regardless of the id, and the generic catch responds 500. -/
theorem patch_status_amended (appts : List AppointmentRow) (id : Nat)
    (status : String) (now : Nat) :
    (appointmentStatusValues.contains status = true →
      (patchAppointmentStatusRoute appts id status now).1
        = { status := 200, body := .messageObj "Appointment status updated" } ∧
      ((∀ a ∈ appts, a.id ≠ id) →
        (patchAppointmentStatusRoute appts id status now).2 = appts) ∧
      (∀ a ∈ (patchAppointmentStatusRoute appts id status now).2,
        a.id = id → a.status = status)) ∧
    (appointmentStatusValues.contains status = false →
      patchAppointmentStatusRoute appts id status now
        = ({ status := 500,
             body := .messageObj "Failed to update appointment status" },
           appts)) := by
  constructor
  · intro hin
    have hin2 : status ∈ appointmentStatusValues := by simpa using hin
    have hroute : patchAppointmentStatusRoute appts id status now
        = ({ status := 200, body := .messageObj "Appointment status updated" },
           appts.map fun a =>
             if a.id == id then { a with status := status, updatedAt := now }
             else a) := by
      simp [patchAppointmentStatusRoute, updateAppointmentStatus, hin2]
    refine ⟨by rw [hroute], ?_, ?_⟩
    · intro hnone
      rw [hroute]
      have hmap : ∀ a ∈ appts,
          (if a.id == id then { a with status := status, updatedAt := now }
           else a) = a := by
        intro a ha
        have : ¬(a.id == id) = true := by simpa using hnone a ha
        simp [this]
      rw [List.map_congr_left hmap]
      simp
    · intro a ha hid
      rw [hroute] at ha
      simp only [List.mem_map] at ha
      obtain ⟨b, _, rfl⟩ := ha
      by_cases hb : (b.id == id) = true
      · simp [hb]
      · simp only [hb, Bool.false_eq_true, not_false_eq_true, if_neg,
          if_false] at hid ⊢
        exact absurd hid (by simpa using hb)
  · intro hout
    have hout2 : status ∉ appointmentStatusValues := by simpa using hout
    simp [patchAppointmentStatusRoute, updateAppointmentStatus, hout2]

/-- C9 amended witness: an in-set status on a non-matching id responds 200
with the table unchanged; the out-of-set status `bogus` on the same table
responds 500. -/
theorem patch_status_amended_witness :
    (patchAppointmentStatusRoute [⟨1, "u1", "scheduled", 0, []⟩] 99
        "completed" 5).1
      = { status := 200, body := .messageObj "Appointment status updated" } ∧
    (patchAppointmentStatusRoute [⟨1, "u1", "scheduled", 0, []⟩] 99
        "completed" 5).2
      = [⟨1, "u1", "scheduled", 0, []⟩] ∧
    patchAppointmentStatusRoute [⟨1, "u1", "scheduled", 0, []⟩] 99 "bogus" 5
      = ({ status := 500,
           body := .messageObj "Failed to update appointment status" },
         [⟨1, "u1", "scheduled", 0, []⟩]) :=
  ⟨((patch_status_amended [⟨1, "u1", "scheduled", 0, []⟩] 99 "completed" 5).1
      (by decide)).1,
   ((patch_status_amended [⟨1, "u1", "scheduled", 0, []⟩] 99 "completed" 5).1
      (by decide)).2.1 (by decide),
   (patch_status_amended [⟨1, "u1", "scheduled", 0, []⟩] 99 "bogus" 5).2
      (by decide)⟩

/-- C10: for a user with no stored profile row, `getUserProfile` returns the
absent value `none` rather than failing, and `GET /api/profile` responds 200
serializing that absent value as-is — not 404 and not 500. -/
theorem missing_profile_absent_not_error (profiles : List UserProfileRow)
    (h : ∀ r ∈ profiles, r.userId ≠ mockUserId) :
    getUserProfile profiles mockUserId = none ∧
    getProfileRoute profiles = { status := 200, body := .profileJson none } := by
  have hg : getUserProfile profiles mockUserId = none := by
    unfold getUserProfile
    rw [List.find?_eq_none]
    intro r hr
    simpa using h r hr
  exact ⟨hg, by simp only [getProfileRoute, hg]⟩

/-- C10 witness: the profile lookup on a table holding only another user's
profile. -/
theorem missing_profile_absent_not_error_witness :
    getUserProfile [⟨"someone-else", [], 0, 0⟩] mockUserId = none ∧
    getProfileRoute [⟨"someone-else", [], 0, 0⟩]
      = { status := 200, body := .profileJson none } :=
  missing_profile_absent_not_error [⟨"someone-else", [], 0, 0⟩]
    (by intro r hr; simp at hr; subst hr; decide)

end HealthApp
